import Mathlib

/-!
Verification development for the toeic-quiz server.

The repository contains several near-duplicate server variants. The
definitions below are shallow embeddings of the endpoint handlers the
claims reference: JavaScript objects become association lists
(`List (String × String)` etc., property access = `List.lookup`), the
module-level mutable state of a server variant becomes an explicit
state record, and each handler becomes a function from state (and
request data) to a response together with the successor state.
-/

namespace ToeicQuiz

/-- The question key string built by the submit loops: `q${i}`. -/
def qkey (i : Nat) : String := "q" ++ toString i

/-- JavaScript truthiness of a possibly-absent string property:
`undefined` and the empty string are falsy. -/
def truthyStr : Option String → Bool
  | none => false
  | some s => s ≠ ""

/-- Scoring loop of the first `POST /submit` variant
(src/server.js lines 533-539): for i = 1..200,
`if (userAnswer && userAnswer === correctAnswer) score++`. -/
def scoreV1 (answerKey answers : List (String × String)) : Nat :=
  (List.range 200).foldl
    (fun score i =>
      let q := qkey (i + 1)
      let userAnswer := answers.lookup q
      if truthyStr userAnswer && (userAnswer == answerKey.lookup q)
      then score + 1 else score)
    0

/-- Scoring loop of the second `POST /submit` variant
(src/server.js lines 1149-1155): for i = 1..200,
`if (answers[q] === currentQuiz.answerKey[q]) score++` — an unguarded
strict equality, for which `undefined === undefined` is true. -/
def scoreV2 (answerKey answers : List (String × String)) : Nat :=
  (List.range 200).foldl
    (fun score i =>
      let q := qkey (i + 1)
      if answers.lookup q == answerKey.lookup q
      then score + 1 else score)
    0

/-- Scoring loop of the part_000 `POST /submit`
(src/unnamed/part_000 lines 338-343): for each key of `answers`,
`if (quiz.answerKey.get(key) === answers[key]) score++`. -/
def scoreP0 (answerKey answers : List (String × String)) : Nat :=
  answers.foldl
    (fun score kv =>
      if answerKey.lookup kv.1 == some kv.2 then score + 1 else score)
    0

/-- The spec scenario's answer key `{q1:"A", q2:"B"}`. -/
def scenKey : List (String × String) := [("q1", "A"), ("q2", "B")]

/-- The spec scenario's submission `{q1:"A", q2:"C", q3:"A"}`. -/
def scenAns : List (String × String) := [("q1", "A"), ("q2", "C"), ("q3", "A")]

/-- Node's `path.basename`: the segment after the last "/". -/
def basename (p : String) : String :=
  String.mk (p.data.foldl (fun acc c => if c = '/' then [] else acc ++ [c]) [])

/-- The suffix of a character list starting at its last '.', when the
list has one. -/
def fromLastDot : List Char → Option (List Char)
  | [] => none
  | c :: rest =>
    match fromLastDot rest with
    | some e => some e
    | none => if c = '.' then some (c :: rest) else none

/-- Node's `path.extname`: the suffix from the last "." of the basename;
"" when the basename has no dot or only a leading dot. -/
def extname (p : String) : String :=
  match (basename p).data with
  | [] => ""
  | c0 :: rest =>
    if c0 = '.' then
      match fromLastDot rest with
      | some e => String.mk e
      | none => ""
    else
      match fromLastDot (c0 :: rest) with
      | some e => String.mk e
      | none => ""

/-- Response outcomes of an endpoint handler. Message strings are kept
(the repository's Vietnamese messages are rendered in English). -/
inductive Resp
  | ok
  | badRequest (msg : String)
  | notFound (msg : String)
  | serverError
deriving DecidableEq, Repr

/-- Exam record of src/server.js, second variant (the object built at
lines 898-906 / 984-992): `audio` maps a part number 1..4 to a blob path,
`images` maps a part number 1..7 to a list of blob paths, `answerKey`
maps question ids to choice strings. -/
structure Quiz where
  quizId : String
  quizName : String
  audio : List (Nat × String)
  images : List (Nat × List String)
  answerKey : List (String × String)
  createdBy : String
  isAssigned : Bool
  timeLimit : Nat
deriving DecidableEq, Repr

/-- Submission record pushed by the second `POST /submit` variant
(src/server.js lines 1157-1164); `answers` and the timestamp are not
inspected by any claim and are omitted. -/
structure ResultRec where
  id : String
  quizId : String
  username : String
  score : Nat
deriving DecidableEq, Repr

/-- One WebSocket connection: its identity and the `ws.username`
property, set only when a `login` message has identified it. -/
structure Client where
  connId : Nat
  username : Option String
deriving DecidableEq, Repr

/-- Module-level mutable state of the second src/server.js variant:
`quizzes`, `currentQuiz` (the id of the aliased current quiz object),
`results`, `clients`, plus the blob store (the set of media file paths
existing under public/uploads), modelled as the list of stored paths. -/
structure ServerState where
  quizzes : List Quiz
  currentQuiz : Option String
  results : List ResultRec
  clients : List Client
  blobs : List String
deriving DecidableEq, Repr

/-- `quizzes.find(q => q.quizId === quizId)`. -/
def findQuiz (quizzes : List Quiz) (qid : String) : Option Quiz :=
  quizzes.find? (fun q => q.quizId == qid)

/-- `POST /select-quiz`, second variant (src/server.js lines 1101-1118). -/
def selectQuizV2 (s : ServerState) (quizId : String) : Resp × ServerState :=
  if quizId = "" then (.badRequest "Quiz ID is required", s)
  else
    match findQuiz s.quizzes quizId with
    | none => (.notFound "Quiz not found", s)
    | some _ => (.ok, { s with currentQuiz := some quizId })

/-- `POST /assign-quiz`, second variant (src/server.js lines 1120-1140):
mutates the found quiz object (aliased into the quizzes array) and makes
it current. -/
def assignQuizV2 (s : ServerState) (quizId : String) (timeLimit : Nat) :
    Resp × ServerState :=
  if quizId = "" ∨ timeLimit = 0 then
    (.badRequest "Quiz ID and time limit are required", s)
  else
    match findQuiz s.quizzes quizId with
    | none => (.notFound "Quiz not found", s)
    | some _ =>
      (.ok, { s with
        quizzes := s.quizzes.map (fun q =>
          if q.quizId == quizId then
            { q with isAssigned := true, timeLimit := timeLimit }
          else q),
        currentQuiz := some quizId })

/-- `POST /delete-results`, second variant (src/server.js lines
1191-1204): `results = results.filter(r => !ids.includes(r.id))`.
The request body's `ids` array is the typed argument. -/
def deleteResultsV2 (s : ServerState) (ids : List String) : Resp × ServerState :=
  (.ok, { s with results := s.results.filter (fun r => !(ids.contains r.id)) })

/-- `POST /logout`, second variant (src/server.js lines 1206-1222):
deletes from the client set every connection whose `username` equals
the given one (a falsy username skips the removal). -/
def logoutV2 (s : ServerState) (username : String) : Resp × ServerState :=
  if username = "" then (.ok, s)
  else (.ok, { s with
    clients := s.clients.filter (fun c => c.username != some username) })

/-- `ws.on('close')` handler, second variant (src/server.js lines
1296-1299): `clients.delete(ws)` for the closing connection. -/
def wsCloseV2 (s : ServerState) (c : Nat) : ServerState :=
  { s with clients := s.clients.filter (fun cl => cl.connId != c) }

/-- `wss.on('connection')` registration, second variant (src/server.js
lines 1238-1239): `clients.add(ws)`; the fresh socket has no username. -/
def wsConnectV2 (s : ServerState) (c : Nat) : ServerState :=
  { s with clients := s.clients ++ [⟨c, none⟩] }

/-- The participant count the second variant broadcasts
(src/server.js lines 1240, 1298): `clients.size`, i.e. all sockets. -/
def participantCountV2 (s : ServerState) : Nat := s.clients.length

/-- `updateParticipantCount` of src/unnamed/part_000 (lines 144-147):
`Array.from(clients.values()).filter(client => client.username).length`,
counting only registered connections with a truthy username. -/
def participantCountP0 (clients : List Client) : Nat :=
  (clients.filter (fun c => truthyStr c.username)).length

/-- Stated from the spec's words (§4.4 `count()`), for comparison with
`participantCountP0`: the number of connections that have identified
themselves with a display name. -/
def specIdentifiedCount (clients : List Client) : Nat :=
  (clients.filter (fun c => c.username.isSome)).length

/-- `fs.unlink` of one stored path (the store holds no duplicates, so
removal filters the path out); missing files are a caught no-op. -/
def unlinkBlob (blobs : List String) (p : String) : List String :=
  blobs.filter (fun b => b != p)

/-- Exam document of src/unnamed/part_000 (quizSchema, lines 36-45):
`audio` is an array whose entries may be null, `images` a Map from
part name to file-name list. Media entries are stored as the uploaded
file names (the uploads-directory blob references). -/
structure QuizP0 where
  quizId : String
  quizName : String
  createdBy : String
  audio : List (Option String)
  images : List (Nat × List String)
  answerKey : List (String × String)
  isAssigned : Bool
  timeLimit : Nat
deriving DecidableEq, Repr

/-- Result document of src/unnamed/part_000 (resultSchema, lines 48-55);
the raw answers map and timestamp are not inspected by any claim. -/
structure ResultP0 where
  id : String
  quizId : String
  username : String
  score : Nat
deriving DecidableEq, Repr

/-- Process state of src/unnamed/part_000: the Quiz and Result
collections, the module-level current-quiz variables (lines 62-64), and
the uploads-directory blob store. -/
structure StateP0 where
  quizzes : List QuizP0
  results : List ResultP0
  currentQuizId : Option String
  currentQuizName : Option String
  timeLimit : Nat
  blobs : List String
deriving DecidableEq, Repr

/-- Audio-deletion loop of part_000 `DELETE /delete-quiz` (lines
394-398): for each entry of `quiz.audio`, unlink it when truthy. -/
def unlinkAudioP0 : List (Option String) → List String → List String
  | [], bs => bs
  | none :: rest, bs => unlinkAudioP0 rest bs
  | some f :: rest, bs =>
    unlinkAudioP0 rest (if f = "" then bs else unlinkBlob bs f)

/-- Image-deletion loop of part_000 `DELETE /delete-quiz` (lines
400-404): for each part's image list, unlink every file. -/
def unlinkImagesP0 : List (Nat × List String) → List String → List String
  | [], bs => bs
  | kv :: rest, bs => unlinkImagesP0 rest (kv.2.foldl unlinkBlob bs)

/-- `DELETE /delete-quiz/:quizId` of src/unnamed/part_000 (lines
386-425): unlinks the quiz's media, deletes the quiz document
(`Quiz.deleteOne`), deletes its results (`Result.deleteMany`), and when
the deleted quiz was current resets the current-quiz variables. -/
def deleteQuizP0 (s : StateP0) (quizId : String) : Resp × StateP0 :=
  match s.quizzes.find? (fun q => q.quizId == quizId) with
  | none => (.notFound "Quiz not found", s)
  | some quiz =>
    let blobs1 := unlinkAudioP0 quiz.audio s.blobs
    let blobs2 := unlinkImagesP0 quiz.images blobs1
    let quizzes := s.quizzes.eraseP (fun q => q.quizId == quizId)
    let results := s.results.filter (fun r => r.quizId != quizId)
    if s.currentQuizId == some quizId then
      (.ok, { quizzes := quizzes, results := results, currentQuizId := none,
              currentQuizName := none, timeLimit := 7200, blobs := blobs2 })
    else
      (.ok, { s with quizzes := quizzes, results := results, blobs := blobs2 })

/-- `DELETE /delete-quiz/:quizId`, second src/server.js variant (lines
1064-1099). The audio loop reads `quiz.audio[part].slice(1)` for every
part 1..4 and the image loop iterates `quiz.images[part]` for every part
1..7, so an absent part throws a TypeError: the catch answers 500 with
the unlinks performed so far kept. Results are never touched. -/
def deleteAudioBlobsV2 (q : Quiz) : List Nat → List String →
    Except (List String) (List String)
  | [], blobs => .ok blobs
  | i :: rest, blobs =>
    match q.audio.lookup i with
    | none => .error blobs
    | some p => deleteAudioBlobsV2 q rest (unlinkBlob blobs p)

/-- Image-deletion loop of the second variant's `DELETE /delete-quiz`
(src/server.js lines 1079-1086); errors when a part key is absent. -/
def deleteImageBlobsV2 (q : Quiz) : List Nat → List String →
    Except (List String) (List String)
  | [], blobs => .ok blobs
  | i :: rest, blobs =>
    match q.images.lookup i with
    | none => .error blobs
    | some imgs => deleteImageBlobsV2 q rest (imgs.foldl unlinkBlob blobs)

/-- `DELETE /delete-quiz/:quizId`, second src/server.js variant (lines
1064-1099). -/
def deleteQuizV2 (s : ServerState) (quizId : String) : Resp × ServerState :=
  match findQuiz s.quizzes quizId with
  | none => (.notFound "Quiz not found", s)
  | some quiz =>
    match deleteAudioBlobsV2 quiz [1, 2, 3, 4] s.blobs with
    | .error bs => (.serverError, { s with blobs := bs })
    | .ok bs =>
      match deleteImageBlobsV2 quiz [1, 2, 3, 4, 5, 6, 7] bs with
      | .error bs2 => (.serverError, { s with blobs := bs2 })
      | .ok bs2 =>
        let quizzes := s.quizzes.filter (fun q => q.quizId != quizId)
        if s.currentQuiz == some quizId then
          (.ok, { s with quizzes := quizzes, blobs := bs2, currentQuiz := none })
        else
          (.ok, { s with quizzes := quizzes, blobs := bs2 })

/-- Quiz record of src/unnamed/part_001 (built at lines 333-341 and
793-801): `audioFiles`/`imageFiles` are lists of `{part, path}` pairs. -/
structure QuizP1 where
  id : String
  quizName : String
  answerKey : List (String × String)
  createdBy : String
  audioFiles : List (Nat × String)
  imageFiles : List (Nat × String)
deriving DecidableEq, Repr

/-- One row of the `submitted` array kept in part_001's status file. -/
structure SubmittedP1 where
  username : String
  score : Nat
deriving DecidableEq, Repr

/-- Contents of part_001's STATUS_FILE: the session object written by
select/assign (lines 442-448, 474-481); an absent key is `none`. -/
structure StatusP1 where
  quizId : Option String
  quizName : Option String
  isAssigned : Bool
  timeLimit : Option Nat
  participants : List String
  submitted : List SubmittedP1
deriving DecidableEq, Repr

/-- Result row of part_001's RESULTS_FILE (built at lines 521-529). -/
structure ResultP1 where
  id : String
  quizId : String
  studentName : String
  score : Nat
deriving DecidableEq, Repr

/-- Persistent state of src/unnamed/part_001: the quizzes file, the
status file, the results file, and the uploads blob store. -/
structure StateP1 where
  quizzes : List QuizP1
  status : StatusP1
  results : List ResultP1
  blobs : List String
deriving DecidableEq, Repr

/-- `POST /select-quiz` of src/unnamed/part_001 (lines 431-460): finds
the quiz and overwrites the whole status file with
`{quizId, quizName, isAssigned: false, participants: [], submitted: []}`. -/
def selectQuizP1 (s : StateP1) (quizId : String) : Resp × StateP1 :=
  if quizId = "" then (.badRequest "quizId is required", s)
  else
    match s.quizzes.find? (fun q => q.id == quizId) with
    | none => (.notFound "Quiz not found", s)
    | some quiz =>
      (.ok, { s with status :=
        { quizId := some quizId, quizName := some quiz.quizName,
          isAssigned := false, timeLimit := none,
          participants := [], submitted := [] } })

/-- One answer of part_001's key validation (lines 786-790):
`answerKey[q_i]` is truthy and one of the four choice letters. -/
def p1GoodAnswer (k : List (String × String)) (i : Nat) : Bool :=
  match k.lookup (qkey i) with
  | some v => v == "A" || v == "B" || v == "C" || v == "D"
  | none => false

/-- The whole part_001 answer-key validation (lines 781-790): exactly
200 keys and every `q1`..`q200` maps to one of A, B, C, D. -/
def validKey200 (k : List (String × String)) : Bool :=
  k.length == 200 && (List.range 200).all (fun i => p1GoodAnswer k (i + 1))

/-- Metadata `quizInfo.json` of a part_001 package. -/
structure MetaP1 where
  quizName : String
  createdBy : String
deriving DecidableEq, Repr

/-- An uploaded part_001 package after extraction: the two metadata
entries when present and parseable, and the recognized media entries
as `(part, extension)` pairs (entries under `audio/` and `images/`
whose path matches `/part(\d+)/`; others are skipped by the scan). -/
structure PkgP1 where
  quizInfo : Option MetaP1
  answerKey : Option (List (String × String))
  audioEntries : List (Nat × String)
  imageEntries : List (Nat × String)
deriving DecidableEq, Repr

/-- Blob path that part_001's import writes for an audio entry; the
`Date.now()` suffix of the source is abstracted to a fixed tag (no
settled claim inspects blob identity in this variant). -/
def p1AudioBlobName (part : Nat) (ext : String) : String :=
  "/uploads/audio/audio-part" ++ toString part ++ "-t" ++ ext

/-- Blob path that part_001's import writes for an image entry. -/
def p1ImageBlobName (part : Nat) (ext : String) : String :=
  "/uploads/images/images-part" ++ toString part ++ "-t" ++ ext

/-- `POST /upload-quizzes-zip` of src/unnamed/part_001 (lines 734-810):
the scan writes every recognized media entry into the store first, then
the validations run (metadata present, 4 audio entries, image entries
for parts 1..7, then the answer-key checks in source order); only when
all pass is the new quiz appended to the quizzes file. -/
def uploadZipP1 (s : StateP1) (pkg : PkgP1) (newId : String) : Resp × StateP1 :=
  let s1 := { s with blobs := s.blobs
    ++ pkg.audioEntries.map (fun e => p1AudioBlobName e.1 e.2)
    ++ pkg.imageEntries.map (fun e => p1ImageBlobName e.1 e.2) }
  match pkg.quizInfo, pkg.answerKey with
  | none, _ => (.badRequest "ZIP is missing quizInfo.json or answerKey.json", s1)
  | some _, none => (.badRequest "ZIP is missing quizInfo.json or answerKey.json", s1)
  | some info, some key =>
    if pkg.audioEntries.length < 4 then
      (.badRequest "ZIP is missing audio files for the parts", s1)
    else if !([1, 2, 3, 4, 5, 6, 7].all
        (fun i => pkg.imageEntries.any (fun e => e.1 == i))) then
      (.badRequest "ZIP is missing image files for one or more parts", s1)
    else if key.length != 200 then
      (.badRequest "the answer key must have exactly 200 answers", s1)
    else
      match (List.range 200).find? (fun i => !p1GoodAnswer key (i + 1)) with
      | some i =>
        (.badRequest ("the answer for q" ++ toString (i + 1)
          ++ " must be A, B, C or D"), s1)
      | none =>
        (.ok, { s1 with quizzes := s1.quizzes ++
          [{ id := newId, quizName := info.quizName, answerKey := key,
             createdBy := info.createdBy,
             audioFiles := pkg.audioEntries.map
               (fun e => (e.1, p1AudioBlobName e.1 e.2)),
             imageFiles := pkg.imageEntries.map
               (fun e => (e.1, p1ImageBlobName e.1 e.2)) }] })

/-- One entry written into a download archive, tagged by which loop of
the encoder produced it; `name` is the exact archive-entry name the
source passes to the archiver. -/
inductive ZipEntry
  | metaJson (name : String)
  | audioPart (part : Nat) (name : String)
  | image (part : Nat) (name : String)
deriving DecidableEq, Repr

/-- Entries the first variant's encoder writes for one audio part
(src/server.js lines 387-395): when `quiz.audio[part]` is truthy and
the file exists, the single entry `part{i}/audio/part{i}.mp3`. -/
def encodeAudioEntryV1 (q : Quiz) (blobs : List String) (i : Nat) :
    List ZipEntry :=
  match q.audio.lookup i with
  | some p =>
    if p != "" && blobs.contains p then
      [ZipEntry.audioPart i
        ("part" ++ toString i ++ "/audio/part" ++ toString i ++ ".mp3")]
    else []
  | none => []

/-- Audio loop of the first variant's encoder over parts 1..4. -/
def encodeAudioV1 (q : Quiz) (blobs : List String) : List ZipEntry :=
  [1, 2, 3, 4].flatMap (encodeAudioEntryV1 q blobs)

/-- Image entries of `GET /download-quiz-zip`, first src/server.js
variant (lines 397-406): `quiz.images[part] || []`, one entry per
existing file under `part{i}/images/`. -/
def encodeImagesV1 (q : Quiz) (blobs : List String) : List ZipEntry :=
  [1, 2, 3, 4, 5, 6, 7].flatMap (fun i =>
    ((q.images.lookup i).getD []).filterMap (fun img =>
      if blobs.contains img then
        some (ZipEntry.image i
          ("part" ++ toString i ++ "/images/" ++ basename img))
      else none))

/-- `GET /download-quiz-zip/:quizId`, first src/server.js variant
(lines 370-413): always the `key/quizzes.json` metadata entry, then the
guarded audio and image entries; the encoder is total. -/
def encodeV1 (q : Quiz) (blobs : List String) : List ZipEntry :=
  ZipEntry.metaJson "key/quizzes.json" ::
    (encodeAudioV1 q blobs ++ encodeImagesV1 q blobs)

/-- Audio loop of `GET /download-quiz-zip`, second src/server.js
variant (lines 1026-1031): `quiz.audio[part].slice(1)` is read for
every part 1..4, so an absent part throws (caught as a 500). -/
def encodeAudioV2 (q : Quiz) (blobs : List String) :
    List Nat → Except Unit (List ZipEntry)
  | [] => .ok []
  | i :: rest =>
    match q.audio.lookup i with
    | none => .error ()
    | some p =>
      match encodeAudioV2 q blobs rest with
      | .error e => .error e
      | .ok es =>
        .ok ((if blobs.contains p then
          [ZipEntry.audioPart i ("audio-part" ++ toString i ++ extname p)]
        else []) ++ es)

/-- Image loop of the second variant's encoder (src/server.js lines
1033-1040): iterates `quiz.images[part]` for every part 1..7, throwing
when the key is absent; existing files are added under their basename. -/
def encodeImagesV2 (q : Quiz) (blobs : List String) :
    List Nat → Except Unit (List ZipEntry)
  | [] => .ok []
  | i :: rest =>
    match q.images.lookup i with
    | none => .error ()
    | some imgs =>
      match encodeImagesV2 q blobs rest with
      | .error e => .error e
      | .ok es =>
        .ok ((imgs.filterMap (fun img =>
          if blobs.contains img then some (ZipEntry.image i (basename img))
          else none)) ++ es)

/-- `GET /download-quiz-zip/:quizId`, second src/server.js variant
(lines 1006-1047): metadata entry `quiz.json` plus the audio and image
loops; `.error ()` is the caught TypeError answered as a 500. -/
def encodeV2 (q : Quiz) (blobs : List String) : Except Unit (List ZipEntry) :=
  match encodeAudioV2 q blobs [1, 2, 3, 4] with
  | .error e => .error e
  | .ok as =>
    match encodeImagesV2 q blobs [1, 2, 3, 4, 5, 6, 7] with
    | .error e => .error e
    | .ok is => .ok (ZipEntry.metaJson "quiz.json" :: (as ++ is))

/-- Metadata of a package for the first variant's import: the parse of
`key/quizzes.json`. Its `audio` and `images` fields are the optional
audio/image objects of the parsed JSON — `none` when the metadata
lacks that object, in which case the import's per-part accesses on it
throw a TypeError (caught as a 500). -/
structure MetaV1 where
  quizName : String
  answerKey : List (String × String)
  createdBy : String
  audio : Option (List (Nat × String))
  images : Option (List (Nat × List String))
deriving DecidableEq, Repr

/-- An uploaded package for `POST /upload-quizzes-zip`, first
src/server.js variant: the metadata when `key/quizzes.json` exists,
which audio parts have a `part{i}/audio/part{i}.mp3` file, and the
files `readdir` finds under each `part{i}/images/`. -/
structure PkgV1 where
  meta : Option MetaV1
  audioParts : List Nat
  imageFiles : List (Nat × List String)
deriving DecidableEq, Repr

/-- Blob path the first variant's import copies an audio part to
(src/server.js line 452): `{newQuizId}_part{i}.mp3`. -/
def v1AudioBlobName (newId : String) (i : Nat) : String :=
  "/uploads/audio/" ++ newId ++ "_part" ++ toString i ++ ".mp3"

/-- Blob path the first variant's import copies an image to
(src/server.js line 468): `{newQuizId}_part{i}_{imageFile}`. -/
def v1ImageBlobName (newId : String) (i : Nat) (f : String) : String :=
  "/uploads/images/" ++ newId ++ "_part" ++ toString i ++ "_" ++ f

/-- `POST /upload-quizzes-zip`, first src/server.js variant (lines
415-489). A missing `key/quizzes.json` fails before any write (with
cleanup of the temp files). Otherwise the audio loop runs for parts
1..4 in order: a present `part{i}/audio/part{i}.mp3` is first copied
into the store (line 453) and then recorded with
`quizData.audio[part i] = ...` (line 454) — which throws a TypeError,
caught as a 500 with no cleanup, when the metadata has no `audio`
object; an absent file runs `delete quizData.audio[part i]`, which
throws on a missing `audio` object too, at part 1 before any copy.
The image loop first runs `quizData.images[part i] = []` (line 463),
throwing — after every audio copy — when `images` is absent, and then
copies each found image. Only with both objects present is the quiz
appended: its maps keep the metadata's non-part keys (updated part
keys appended; key order of the JS object is abstracted away). -/
def uploadZipV1 (s : ServerState) (pkg : PkgV1) (newId : String) :
    Resp × ServerState :=
  match pkg.meta with
  | none => (.badRequest "Missing key/quizzes.json in ZIP", s)
  | some meta =>
    match meta.audio with
    | none =>
      if 1 ∈ pkg.audioParts then
        (.serverError, { s with blobs := s.blobs ++ [v1AudioBlobName newId 1] })
      else
        (.serverError, s)
    | some m =>
      let audio := m.filter (fun kv => decide (kv.1 ∉ [1, 2, 3, 4])) ++
        [1, 2, 3, 4].filterMap (fun i =>
          if pkg.audioParts.contains i then some (i, v1AudioBlobName newId i)
          else none)
      let audioBlobs := [1, 2, 3, 4].filterMap (fun i =>
        if pkg.audioParts.contains i then some (v1AudioBlobName newId i)
        else none)
      match meta.images with
      | none => (.serverError, { s with blobs := s.blobs ++ audioBlobs })
      | some mi =>
        let images := mi.filter (fun kv => decide (kv.1 ∉ [1, 2, 3, 4, 5, 6, 7])) ++
          [1, 2, 3, 4, 5, 6, 7].map (fun i =>
            (i, ((pkg.imageFiles.lookup i).getD []).map (v1ImageBlobName newId i)))
        let newBlobs := audioBlobs ++
          ([1, 2, 3, 4, 5, 6, 7].foldr (fun i acc =>
            ((pkg.imageFiles.lookup i).getD []).map (v1ImageBlobName newId i)
              ++ acc) [])
        (.ok, { s with
          quizzes := s.quizzes ++
            [{ quizId := newId, quizName := meta.quizName, audio := audio,
               images := images, answerKey := meta.answerKey,
               createdBy := meta.createdBy, isAssigned := false,
               timeLimit := 7200 }],
          blobs := s.blobs ++ newBlobs })

/-- Metadata `quiz.json` of a package for the second variant's import
(read at src/server.js lines 954-955). -/
structure MetaV2 where
  quizName : String
  audio : List (Nat × String)
  images : List (Nat × List String)
  answerKey : List (String × String)
  createdBy : String
deriving DecidableEq, Repr

/-- An uploaded package for `POST /upload-quizzes-zip`, second
src/server.js variant: the metadata when `quiz.json` exists and parses
(otherwise the read throws, a 500), and the file names present in the
extracted archive. -/
structure PkgV2 where
  meta : Option MetaV2
  files : List String
deriving DecidableEq, Repr

/-- Blob path the second variant's import renames an audio part to; the
fresh uuid of src/server.js line 961 is abstracted to a deterministic
name (the claims inspect which blobs exist, not their identifiers). -/
def v2AudioBlobName (i : Nat) : String :=
  "/uploads/audio/import-part" ++ toString i

/-- Blob path the second variant's import renames an image to
(src/server.js line 975), uuid abstracted as for audio parts. -/
def v2ImageBlobName (i j : Nat) : String :=
  "/uploads/images/import-part" ++ toString i ++ "-" ++ toString j

/-- Audio loop of the second variant's import (src/server.js lines
957-967): for parts 1..4, the expected name is
`audio-part{i}{extname(quizData.audio[part i])}` (an absent metadata
entry throws, a 500); when the file exists it is renamed into the
store, otherwise the handler returns 400 keeping the blobs written so
far. -/
def importAudioV2 (meta : MetaV2) (files : List String) :
    List Nat → List String → Except (Resp × List String) (List String)
  | [], blobs => .ok blobs
  | i :: rest, blobs =>
    match meta.audio.lookup i with
    | none => .error (.serverError, blobs)
    | some src =>
      if ("audio-part" ++ toString i ++ extname src) ∈ files then
        importAudioV2 meta files rest (blobs ++ [v2AudioBlobName i])
      else
        .error (.badRequest ("Missing audio file for part " ++ toString i), blobs)

/-- Inner image loop of the second variant's import (src/server.js
lines 971-981) over one part's metadata entries; `j` numbers the
writes of the part. -/
def importImagesPartV2 (files : List String) (i : Nat) :
    List String → Nat → List String →
    Except (Resp × List String) (List String × List String)
  | [], _, blobs => .ok (blobs, [])
  | img :: rest, j, blobs =>
    if basename img ∈ files then
      match importImagesPartV2 files i rest (j + 1) (blobs ++ [v2ImageBlobName i j]) with
      | .error e => .error e
      | .ok (bs, ps) => .ok (bs, v2ImageBlobName i j :: ps)
    else
      .error (.badRequest ("Missing image for part " ++ toString i), blobs)

/-- Outer image loop of the second variant's import (src/server.js
lines 969-982): an absent `quizData.images[part]` throws (a 500). -/
def importImagesV2 (meta : MetaV2) (files : List String) :
    List Nat → List String →
    Except (Resp × List String) (List String × List (Nat × List String))
  | [], blobs => .ok (blobs, [])
  | i :: rest, blobs =>
    match meta.images.lookup i with
    | none => .error (.serverError, blobs)
    | some imgs =>
      match importImagesPartV2 files i imgs 0 blobs with
      | .error e => .error e
      | .ok (bs, ps) =>
        match importImagesV2 meta files rest bs with
        | .error e => .error e
        | .ok (bs2, pss) => .ok (bs2, (i, ps) :: pss)

/-- `POST /upload-quizzes-zip`, second src/server.js variant (lines
941-1004): processes audio then images, renaming media into the store
as it goes; any failure returns at once with the blobs written so far
kept (there is no compensating cleanup); on success the quiz is
appended. -/
def uploadZipV2 (s : ServerState) (pkg : PkgV2) (newId : String) :
    Resp × ServerState :=
  match pkg.meta with
  | none => (.serverError, s)
  | some meta =>
    match importAudioV2 meta pkg.files [1, 2, 3, 4] s.blobs with
    | .error (r, bs) => (r, { s with blobs := bs })
    | .ok bs =>
      match importImagesV2 meta pkg.files [1, 2, 3, 4, 5, 6, 7] bs with
      | .error (r, bs2) => (r, { s with blobs := bs2 })
      | .ok (bs2, images) =>
        (.ok, { s with
          quizzes := s.quizzes ++
            [{ quizId := newId, quizName := meta.quizName,
               audio := [1, 2, 3, 4].map (fun i => (i, v2AudioBlobName i)),
               images := images, answerKey := meta.answerKey,
               createdBy := meta.createdBy, isAssigned := false,
               timeLimit := 7200 }],
          blobs := bs2 })

/-- Stated from the claim's words (C10): the prior results list with
exactly the records whose id is a member of `ids` removed. -/
def specRemoveByIds (rs : List ResultRec) (ids : List String) : List ResultRec :=
  rs.filter (fun r => decide (r.id ∉ ids))

/-!  Theorems settling the claims. -/

set_option maxRecDepth 8000 in
/-- C1: at the spec's own scenario — answer key `{q1:"A", q2:"B"}`,
submission `{q1:"A", q2:"C", q3:"A"}` — the second `POST /submit`
variant computes 198, because its unguarded `===` counts every index
1..200 absent from both maps as a match; the first variant and the
part_000 submit compute the specified score 1. -/
theorem submit_scoring_at_spec_scenario :
    scoreV2 scenKey scenAns = 198 ∧ scoreV1 scenKey scenAns = 1 ∧
    scoreP0 scenKey scenAns = 1 := by
  refine ⟨?_, ?_, ?_⟩ <;> decide

/-- C3: selecting or assigning an exam id that is not in the repository
fails without any mutation: the returned state is exactly the prior
state (active exam, clients, results, quizzes and blobs all included),
and — whenever the id is not falsy (and, for assign, the time limit is
not falsy) — the failure is the `Quiz not found` (ExamNotFound) error. -/
theorem select_assign_missing_exam_atomic (s : ServerState) (qid : String)
    (tl : Nat) (h : findQuiz s.quizzes qid = none) :
    (selectQuizV2 s qid).2 = s ∧ (assignQuizV2 s qid tl).2 = s ∧
    (qid ≠ "" → (selectQuizV2 s qid).1 = .notFound "Quiz not found") ∧
    (qid ≠ "" → tl ≠ 0 →
      (assignQuizV2 s qid tl).1 = .notFound "Quiz not found") := by
  refine ⟨?_, ?_, ?_, ?_⟩
  · by_cases hq : qid = "" <;> simp [selectQuizV2, hq, h]
  · by_cases hq : qid = "" ∨ tl = 0 <;> simp [assignQuizV2, hq, h]
  · intro hq; simp [selectQuizV2, hq, h]
  · intro hq htl; simp [assignQuizV2, hq, htl, h]

/-- Empty server state used as the concrete input of several witnesses. -/
def emptyState : ServerState :=
  { quizzes := [], currentQuiz := none, results := [], clients := [], blobs := [] }

/-- Witness for C3 at the empty state and the id "missing". -/
theorem select_assign_missing_exam_atomic_witness :
    findQuiz emptyState.quizzes "missing" = none ∧
    ((selectQuizV2 emptyState "missing").2 = emptyState ∧
     (assignQuizV2 emptyState "missing" 60).2 = emptyState ∧
     ("missing" ≠ "" →
       (selectQuizV2 emptyState "missing").1 = .notFound "Quiz not found") ∧
     ("missing" ≠ "" → (60 : Nat) ≠ 0 →
       (assignQuizV2 emptyState "missing" 60).1 = .notFound "Quiz not found")) :=
  ⟨by decide, select_assign_missing_exam_atomic emptyState "missing" 60 (by decide)⟩

/-- C9: forgetting a connection twice — by the close handler or by
logout — leaves the same end state (registry contents, hence the
broadcast participant count) as forgetting it once. -/
theorem forget_twice_idempotent (s : ServerState) (c : Nat) (u : String) :
    wsCloseV2 (wsCloseV2 s c) c = wsCloseV2 s c ∧
    (logoutV2 (logoutV2 s u).2 u).2 = (logoutV2 s u).2 ∧
    participantCountV2 (wsCloseV2 (wsCloseV2 s c) c) =
      participantCountV2 (wsCloseV2 s c) := by
  have h1 : wsCloseV2 (wsCloseV2 s c) c = wsCloseV2 s c := by
    simp [wsCloseV2, List.filter_filter]
  refine ⟨h1, ?_, by rw [h1]⟩
  by_cases hu : u = "" <;> simp [logoutV2, hu, List.filter_filter]

/-- C10: deleting results by an id array replaces the results list by
the prior list with exactly the records whose id is in the array
removed — the remainder is a sublist (relative order preserved) whose
members are exactly the prior records with ids outside the array — and
every other component of the state (quizzes, active quiz, clients,
blobs) is unchanged. -/
theorem deleteResults_frame (s : ServerState) (ids : List String) :
    (deleteResultsV2 s ids).2.results = specRemoveByIds s.results ids ∧
    List.Sublist (deleteResultsV2 s ids).2.results s.results ∧
    (∀ r, r ∈ (deleteResultsV2 s ids).2.results ↔
      r ∈ s.results ∧ r.id ∉ ids) ∧
    (deleteResultsV2 s ids).2.quizzes = s.quizzes ∧
    (deleteResultsV2 s ids).2.currentQuiz = s.currentQuiz ∧
    (deleteResultsV2 s ids).2.clients = s.clients ∧
    (deleteResultsV2 s ids).2.blobs = s.blobs := by
  refine ⟨?_, ?_, ?_, rfl, rfl, rfl, rfl⟩
  · simp [deleteResultsV2, specRemoveByIds]
  · exact List.filter_sublist _
  · intro r; simp [deleteResultsV2, List.mem_filter]

/-- Unlinking one path keeps exactly the other paths. -/
theorem mem_unlinkBlob {x p : String} {bs : List String} :
    x ∈ unlinkBlob bs p ↔ x ∈ bs ∧ x ≠ p := by
  simp [unlinkBlob]

/-- The part_000 audio-deletion loop only removes paths. -/
theorem unlinkAudioP0_subset (l : List (Option String)) (bs : List String)
    (x : String) (h : x ∈ unlinkAudioP0 l bs) : x ∈ bs := by
  induction l generalizing bs with
  | nil => simpa [unlinkAudioP0] using h
  | cons a rest ih =>
    cases a with
    | none => exact ih bs (by simpa [unlinkAudioP0] using h)
    | some f =>
      have h2 := ih _ (by simpa [unlinkAudioP0] using h)
      by_cases hf : f = ""
      · simpa [hf] using h2
      · rw [if_neg hf] at h2
        exact (mem_unlinkBlob.mp h2).1

/-- Every truthy audio entry of the loop's input is gone afterwards. -/
theorem unlinkAudioP0_removes (l : List (Option String)) :
    ∀ (bs : List String) (f : String), some f ∈ l → f ≠ "" →
    f ∉ unlinkAudioP0 l bs := by
  induction l with
  | nil => intro bs f hmem _; cases hmem
  | cons a rest ih =>
    intro bs f hmem hne
    cases a with
    | none => exact ih bs f (by simpa using hmem) hne
    | some g =>
      rcases List.mem_cons.mp hmem with heq | htail
      · have hg : f = g := by injection heq
        subst hg
        intro hcon
        have h2 := unlinkAudioP0_subset rest _ f
          (by simpa [unlinkAudioP0, if_neg hne] using hcon)
        exact (mem_unlinkBlob.mp h2).2 rfl
      · exact ih _ f htail hne

/-- Folding `unlinkBlob` over a path list only removes paths. -/
theorem foldl_unlinkBlob_subset (ps : List String) (bs : List String)
    (x : String) (h : x ∈ ps.foldl unlinkBlob bs) : x ∈ bs := by
  induction ps generalizing bs with
  | nil => simpa using h
  | cons p rest ih =>
    have h2 := ih (unlinkBlob bs p) (by simpa using h)
    exact (mem_unlinkBlob.mp h2).1

/-- Every path of the folded list is gone afterwards. -/
theorem foldl_unlinkBlob_removes (ps : List String) (bs : List String)
    (f : String) (hmem : f ∈ ps) : f ∉ ps.foldl unlinkBlob bs := by
  induction ps generalizing bs with
  | nil => cases hmem
  | cons p rest ih =>
    rcases List.mem_cons.mp hmem with heq | htail
    · subst heq
      intro hcon
      have h2 := foldl_unlinkBlob_subset rest _ f (by simpa using hcon)
      exact (mem_unlinkBlob.mp h2).2 rfl
    · exact ih _ htail

/-- The part_000 image-deletion loop only removes paths. -/
theorem unlinkImagesP0_subset (l : List (Nat × List String)) (bs : List String)
    (x : String) (h : x ∈ unlinkImagesP0 l bs) : x ∈ bs := by
  induction l generalizing bs with
  | nil => simpa [unlinkImagesP0] using h
  | cons kv rest ih =>
    exact foldl_unlinkBlob_subset kv.2 bs x
      (ih _ (by simpa [unlinkImagesP0] using h))

/-- Every image file of every part of the loop's input is gone
afterwards. -/
theorem unlinkImagesP0_removes (l : List (Nat × List String)) :
    ∀ (bs : List String) (part : Nat) (imgs : List String) (f : String),
    (part, imgs) ∈ l → f ∈ imgs → f ∉ unlinkImagesP0 l bs := by
  induction l with
  | nil => intro bs part imgs f hkv _; cases hkv
  | cons kv rest ih =>
    intro bs part imgs f hkv hf
    rcases List.mem_cons.mp hkv with heq | htail
    · intro hcon
      have h2 := unlinkImagesP0_subset rest _ f
        (by simpa [unlinkImagesP0] using hcon)
      have hkv2 : kv.2 = imgs := by rw [← heq]
      exact foldl_unlinkBlob_removes kv.2 bs f (by rw [hkv2]; exact hf) h2
    · exact ih _ part imgs f htail hf

/-- C2 (amended, part_000): deleting the active exam through the
part_000 `DELETE /delete-quiz` performs the full cascade — the current
quiz id is reset to null, every truthy audio blob and every image blob
of the exam is gone from the store, and every result recorded against
the exam is removed from the Result collection. -/
theorem deleteQuizP0_cascade (s : StateP0) (qid : String) (quiz : QuizP0)
    (hfind : s.quizzes.find? (fun q => q.quizId == qid) = some quiz)
    (hactive : s.currentQuizId = some qid) :
    (deleteQuizP0 s qid).1 = .ok ∧
    (deleteQuizP0 s qid).2.currentQuizId = none ∧
    (∀ f, some f ∈ quiz.audio → f ≠ "" →
      f ∉ (deleteQuizP0 s qid).2.blobs) ∧
    (∀ part imgs f, (part, imgs) ∈ quiz.images → f ∈ imgs →
      f ∉ (deleteQuizP0 s qid).2.blobs) ∧
    (∀ r ∈ (deleteQuizP0 s qid).2.results, r.quizId ≠ qid) := by
  have hs : deleteQuizP0 s qid =
      (.ok, { quizzes := s.quizzes.eraseP (fun q => q.quizId == qid),
              results := s.results.filter (fun r => r.quizId != qid),
              currentQuizId := none, currentQuizName := none,
              timeLimit := 7200,
              blobs := unlinkImagesP0 quiz.images
                (unlinkAudioP0 quiz.audio s.blobs) }) := by
    simp [deleteQuizP0, hfind, hactive]
  rw [hs]
  refine ⟨rfl, rfl, ?_, ?_, ?_⟩
  · intro f hmem hne hcon
    exact unlinkAudioP0_removes quiz.audio s.blobs f hmem hne
      (unlinkImagesP0_subset quiz.images _ f hcon)
  · intro part imgs f hkv hf
    exact unlinkImagesP0_removes quiz.images _ part imgs f hkv hf
  · intro r hr
    have := (List.mem_filter.mp hr).2
    simpa using this

/-- Concrete part_000 quiz used by the C2 witness. -/
def p0Quiz : QuizP0 :=
  { quizId := "X", quizName := "x", createdBy := "t",
    audio := [some "a1", none], images := [(1, ["i1"])],
    answerKey := [("q1", "A")], isAssigned := false, timeLimit := 7200 }

/-- Concrete part_000 state used by the C2 witness: quiz "X" is active,
has media blobs, and has one recorded result. -/
def p0State : StateP0 :=
  { quizzes := [p0Quiz],
    results := [⟨"r1", "X", "alice", 3⟩, ⟨"r2", "Y", "bob", 4⟩],
    currentQuizId := some "X", currentQuizName := some "x",
    timeLimit := 7200, blobs := ["a1", "i1", "other"] }

/-- Witness for the amended C2 theorem at `p0State` and quiz "X". -/
theorem deleteQuizP0_cascade_witness :
    p0State.quizzes.find? (fun q => q.quizId == "X") = some p0Quiz ∧
    p0State.currentQuizId = some "X" ∧
    ((deleteQuizP0 p0State "X").1 = .ok ∧
     (deleteQuizP0 p0State "X").2.currentQuizId = none ∧
     (∀ f, some f ∈ p0Quiz.audio → f ≠ "" →
       f ∉ (deleteQuizP0 p0State "X").2.blobs) ∧
     (∀ part imgs f, (part, imgs) ∈ p0Quiz.images → f ∈ imgs →
       f ∉ (deleteQuizP0 p0State "X").2.blobs) ∧
     (∀ r ∈ (deleteQuizP0 p0State "X").2.results, r.quizId ≠ "X")) :=
  ⟨by decide, rfl, deleteQuizP0_cascade p0State "X" p0Quiz (by decide) rfl⟩

/-- Concrete second-variant quiz used by the C2 counterexample. -/
def c2Quiz : Quiz :=
  { quizId := "X", quizName := "x",
    audio := [(1, "/uploads/audio/a1"), (2, "/uploads/audio/a2"),
              (3, "/uploads/audio/a3"), (4, "/uploads/audio/a4")],
    images := [(1, ["/uploads/images/i1"]), (2, []), (3, []), (4, []),
               (5, []), (6, []), (7, [])],
    answerKey := [("q1", "A")], createdBy := "t",
    isAssigned := false, timeLimit := 7200 }

/-- Concrete second-variant state for the C2 counterexample: quiz "X"
is active and one submission is recorded against it. -/
def c2State : ServerState :=
  { quizzes := [c2Quiz], currentQuiz := some "X",
    results := [⟨"r1", "X", "alice", 3⟩], clients := [],
    blobs := ["/uploads/audio/a1", "/uploads/audio/a2",
              "/uploads/audio/a3", "/uploads/audio/a4",
              "/uploads/images/i1"] }

/-- C2 counterexample: in the second src/server.js variant, deleting
the active exam "X" succeeds and resets the active exam, yet the
submission recorded against "X" is still in the submission store — the
claimed removal of X's submissions does not happen in this variant. -/
theorem delete_cascade_counterexample :
    (deleteQuizV2 c2State "X").1 = .ok ∧
    (deleteQuizV2 c2State "X").2.currentQuiz = none ∧
    (⟨"r1", "X", "alice", 3⟩ : ResultRec) ∈
      (deleteQuizV2 c2State "X").2.results := by
  decide

/-- C4 (amended, part_001): a successful select of an existing exam
through the part_001 `POST /select-quiz` sets the session's active exam
id, resets the assigned flag to false, and resets the participants and
submitted lists to empty, leaving the quizzes and results untouched. -/
theorem selectQuizP1_effect (s : StateP1) (qid : String) (quiz : QuizP1)
    (hfind : s.quizzes.find? (fun q => q.id == qid) = some quiz)
    (hne : qid ≠ "") :
    (selectQuizP1 s qid).1 = .ok ∧
    (selectQuizP1 s qid).2.status.quizId = some qid ∧
    (selectQuizP1 s qid).2.status.isAssigned = false ∧
    (selectQuizP1 s qid).2.status.participants = [] ∧
    (selectQuizP1 s qid).2.status.submitted = [] ∧
    (selectQuizP1 s qid).2.quizzes = s.quizzes ∧
    (selectQuizP1 s qid).2.results = s.results := by
  simp [selectQuizP1, hne, hfind]

/-- Concrete part_001 quiz used by the C4 witness. -/
def p1Quiz : QuizP1 :=
  { id := "X", quizName := "x", answerKey := [("q1", "A")],
    createdBy := "t", audioFiles := [], imageFiles := [] }

/-- Concrete part_001 state used by the C4 witness: another quiz is
currently assigned, with a participant and a submission recorded. -/
def p1State : StateP1 :=
  { quizzes := [p1Quiz],
    status := { quizId := some "Y", quizName := some "y",
                isAssigned := true, timeLimit := some 60,
                participants := ["p"], submitted := [⟨"p", 1⟩] },
    results := [⟨"r1", "Y", "p", 1⟩], blobs := [] }

/-- Witness for the amended C4 theorem at `p1State` and quiz "X". -/
theorem selectQuizP1_effect_witness :
    p1State.quizzes.find? (fun q => q.id == "X") = some p1Quiz ∧
    ("X" : String) ≠ "" ∧
    ((selectQuizP1 p1State "X").1 = .ok ∧
     (selectQuizP1 p1State "X").2.status.quizId = some "X" ∧
     (selectQuizP1 p1State "X").2.status.isAssigned = false ∧
     (selectQuizP1 p1State "X").2.status.participants = [] ∧
     (selectQuizP1 p1State "X").2.status.submitted = [] ∧
     (selectQuizP1 p1State "X").2.quizzes = p1State.quizzes ∧
     (selectQuizP1 p1State "X").2.results = p1State.results) :=
  ⟨by decide, by decide,
   selectQuizP1_effect p1State "X" p1Quiz (by decide) (by decide)⟩

/-- Concrete second-variant quiz used by the C4 counterexample: it has
been assigned, so its flag is true. -/
def c4Quiz : Quiz :=
  { quizId := "X", quizName := "x", audio := [], images := [],
    answerKey := [], createdBy := "t", isAssigned := true, timeLimit := 60 }

/-- Concrete second-variant state for the C4 counterexample. -/
def c4State : ServerState :=
  { quizzes := [c4Quiz], currentQuiz := none,
    results := [⟨"r1", "X", "alice", 3⟩], clients := [], blobs := [] }

/-- C4 counterexample: in the second src/server.js variant, selecting
exam "X" succeeds and makes it active, but the assigned flag of the
stored exam remains true and the submission list is not reset. -/
theorem select_effect_counterexample :
    (selectQuizV2 c4State "X").1 = .ok ∧
    (selectQuizV2 c4State "X").2.currentQuiz = some "X" ∧
    (selectQuizV2 c4State "X").2.quizzes = [c4Quiz] ∧
    c4Quiz.isAssigned = true ∧
    (selectQuizV2 c4State "X").2.results = [⟨"r1", "X", "alice", 3⟩] := by
  decide

/-- C8 (amended, part_000): for a registry none of whose connections
carries the degenerate empty-string name, part_000's broadcast count
equals the number of identified connections, and registering one more
unidentified connection leaves that count unchanged. -/
theorem participantCountP0_identified (clients : List Client)
    (h : ∀ c ∈ clients, c.username ≠ some "") :
    participantCountP0 clients = specIdentifiedCount clients ∧
    (∀ cid, participantCountP0 (clients ++ [⟨cid, none⟩]) =
      participantCountP0 clients) := by
  constructor
  · unfold participantCountP0 specIdentifiedCount
    congr 1
    apply List.filter_congr
    intro c hc
    cases hcu : c.username with
    | none => simp [truthyStr, hcu]
    | some v =>
      have hv : v ≠ "" := fun hs => h c hc (by rw [hcu, hs])
      simp [truthyStr, hcu, hv]
  · intro cid
    unfold participantCountP0
    rw [List.filter_append]
    simp [truthyStr]

/-- Witness for the amended C8 theorem at a registry with one
identified and one unidentified connection. -/
theorem participantCountP0_identified_witness :
    (∀ c ∈ [(⟨1, some "an"⟩ : Client), ⟨2, none⟩], c.username ≠ some "") ∧
    (participantCountP0 [⟨1, some "an"⟩, ⟨2, none⟩] =
      specIdentifiedCount [⟨1, some "an"⟩, ⟨2, none⟩] ∧
     (∀ cid, participantCountP0
        ([(⟨1, some "an"⟩ : Client), ⟨2, none⟩] ++ [⟨cid, none⟩]) =
      participantCountP0 [⟨1, some "an"⟩, ⟨2, none⟩])) :=
  ⟨by decide, participantCountP0_identified _ (by decide)⟩

/-- C8 counterexample: the second src/server.js variant broadcasts
`clients.size` when a socket connects: one open socket that has not
identified itself yields a broadcast participant count of 1, while the
number of identified connections is 0. -/
theorem participant_count_counterexample :
    participantCountV2 (wsConnectV2 emptyState 1) = 1 ∧
    specIdentifiedCount (wsConnectV2 emptyState 1).clients = 0 := by
  decide

/-- An audio entry for part i appears in the first variant's archive
only when the exam has an audio path for part i. -/
theorem encodeAudioV1_gives_present (q : Quiz) (blobs : List String)
    (i : Nat) (name : String)
    (h : ZipEntry.audioPart i name ∈ encodeAudioV1 q blobs) :
    ∃ p, q.audio.lookup i = some p := by
  rcases List.mem_flatMap.mp h with ⟨j, _, hje⟩
  cases hlook : q.audio.lookup j with
  | none => simp [encodeAudioEntryV1, hlook] at hje
  | some p =>
    simp only [encodeAudioEntryV1, hlook] at hje
    by_cases hc : (p != "" && blobs.contains p) = true
    · rw [if_pos hc] at hje
      have heq := List.mem_singleton.mp hje
      injection heq with hij _
      exact ⟨p, by rw [hij]; exact hlook⟩
    · rw [if_neg hc] at hje; simp at hje

/-- The second variant's audio loop raises as soon as some requested
part has no audio path. -/
theorem encodeAudioV2_error (q : Quiz) (blobs : List String)
    (l : List Nat) (h : ∃ i ∈ l, q.audio.lookup i = none) :
    encodeAudioV2 q blobs l = .error () := by
  induction l with
  | nil => rcases h with ⟨i, hi, _⟩; cases hi
  | cons a rest ih =>
    rcases h with ⟨i, hi, hnone⟩
    rcases List.mem_cons.mp hi with heq | htail
    · subst heq; simp [encodeAudioV2, hnone]
    · cases hlook : q.audio.lookup a with
      | none => simp [encodeAudioV2, hlook]
      | some p => simp [encodeAudioV2, hlook, ih ⟨i, htail, hnone⟩]

/-- C6 (amended): the first variant's encoder is total — it returns an
entry list for every exam — and simply omits the entry of an absent
audio part (no `audioPart i` entry occurs when part i is missing),
while the second variant's encoder raises (a caught TypeError answered
as a 500) whenever any audio part 1..4 is absent. -/
theorem encoder_totality_amended (q : Quiz) (blobs : List String) (i : Nat)
    (hnone : q.audio.lookup i = none) :
    (∀ name, ZipEntry.audioPart i name ∉ encodeV1 q blobs) ∧
    (i ∈ [1, 2, 3, 4] → encodeV2 q blobs = .error ()) := by
  constructor
  · intro name hmem
    rcases List.mem_cons.mp hmem with hmeta | hrest
    · simp at hmeta
    rcases List.mem_append.mp hrest with ha | himg
    · rcases encodeAudioV1_gives_present q blobs i name ha with ⟨p, hp⟩
      rw [hnone] at hp; exact Option.noConfusion hp
    · rcases List.mem_flatMap.mp himg with ⟨j, _, hje⟩
      rcases List.mem_filterMap.mp hje with ⟨img, _, heq⟩
      by_cases hc : blobs.contains img = true
      · rw [if_pos hc] at heq
        injection heq with h2
        exact ZipEntry.noConfusion h2
      · rw [if_neg hc] at heq
        exact Option.noConfusion heq
  · intro hi
    have h2 : encodeAudioV2 q blobs [1, 2, 3, 4] = .error () :=
      encodeAudioV2_error q blobs [1, 2, 3, 4] ⟨i, hi, hnone⟩
    simp [encodeV2, h2]

/-- Concrete quiz with no audio tracks (and all image part keys, as the
second variant's own creation paths build them). -/
def c6Quiz : Quiz :=
  { quizId := "X", quizName := "x", audio := [],
    images := [(1, []), (2, []), (3, []), (4, []), (5, []), (6, []), (7, [])],
    answerKey := [("q1", "A")], createdBy := "t",
    isAssigned := false, timeLimit := 7200 }

/-- Witness for the amended C6 theorem at `c6Quiz` and part 1. -/
theorem encoder_totality_amended_witness :
    c6Quiz.audio.lookup 1 = none ∧
    ((∀ name, ZipEntry.audioPart 1 name ∉ encodeV1 c6Quiz []) ∧
     ((1 : Nat) ∈ [1, 2, 3, 4] → encodeV2 c6Quiz [] = .error ())) :=
  ⟨by decide, encoder_totality_amended c6Quiz [] 1 (by decide)⟩

/-- C6 counterexample: the second variant's `GET /download-quiz-zip`
raises (answers 500) for an exam with zero audio tracks, refuting
"the package encode operation succeeds without raising" for exams with
0-4 audio parts. -/
theorem encoder_counterexample : encodeV2 c6Quiz [] = .error () := rfl

/-- The blob store an import step leaves behind, error or not. -/
def stepBlobs : Except (Resp × List String) (List String) → List String
  | .error (_, bs) => bs
  | .ok bs => bs

/-- The blob store after the inner image loop, error or not. -/
def stepBlobsPart :
    Except (Resp × List String) (List String × List String) → List String
  | .error (_, bs) => bs
  | .ok (bs, _) => bs

/-- The blob store after the outer image loop, error or not. -/
def stepBlobsImg :
    Except (Resp × List String) (List String × List (Nat × List String)) →
    List String
  | .error (_, bs) => bs
  | .ok (bs, _) => bs

/-- The second variant's audio import only appends to the blob store,
on success and on failure alike. -/
theorem importAudioV2_extends (meta : MetaV2) (files : List String) :
    ∀ (l : List Nat) (bs : List String),
    ∃ t, stepBlobs (importAudioV2 meta files l bs) = bs ++ t := by
  intro l
  induction l with
  | nil => intro bs; exact ⟨[], by simp [importAudioV2, stepBlobs]⟩
  | cons i rest ih =>
    intro bs
    cases hlook : meta.audio.lookup i with
    | none => exact ⟨[], by simp [importAudioV2, hlook, stepBlobs]⟩
    | some src =>
      by_cases hf : ("audio-part" ++ toString i ++ extname src) ∈ files
      · obtain ⟨t, ht⟩ := ih (bs ++ [v2AudioBlobName i])
        refine ⟨[v2AudioBlobName i] ++ t, ?_⟩
        simp only [importAudioV2, hlook, if_pos hf]
        rw [ht, List.append_assoc]
      · exact ⟨[], by simp [importAudioV2, hlook, if_neg hf, stepBlobs]⟩

/-- The inner image loop of the second variant's import only appends to
the blob store. -/
theorem importImagesPartV2_extends (files : List String) (i : Nat) :
    ∀ (imgs : List String) (j : Nat) (bs : List String),
    ∃ t, stepBlobsPart (importImagesPartV2 files i imgs j bs) = bs ++ t := by
  intro imgs
  induction imgs with
  | nil => intro j bs; exact ⟨[], by simp [importImagesPartV2, stepBlobsPart]⟩
  | cons img rest ih =>
    intro j bs
    by_cases hf : basename img ∈ files
    · obtain ⟨t, ht⟩ := ih (j + 1) (bs ++ [v2ImageBlobName i j])
      refine ⟨[v2ImageBlobName i j] ++ t, ?_⟩
      simp only [importImagesPartV2, if_pos hf]
      cases hrec : importImagesPartV2 files i rest (j + 1)
          (bs ++ [v2ImageBlobName i j]) with
      | error e =>
        obtain ⟨r, bsE⟩ := e
        rw [hrec] at ht
        simp only [stepBlobsPart] at ht ⊢
        rw [ht, List.append_assoc]
      | ok pr =>
        obtain ⟨bs2, ps⟩ := pr
        rw [hrec] at ht
        simp only [stepBlobsPart] at ht ⊢
        rw [ht, List.append_assoc]
    · exact ⟨[], by simp [importImagesPartV2, if_neg hf, stepBlobsPart]⟩

/-- The outer image loop of the second variant's import only appends to
the blob store. -/
theorem importImagesV2_extends (meta : MetaV2) (files : List String) :
    ∀ (l : List Nat) (bs : List String),
    ∃ t, stepBlobsImg (importImagesV2 meta files l bs) = bs ++ t := by
  intro l
  induction l with
  | nil => intro bs; exact ⟨[], by simp [importImagesV2, stepBlobsImg]⟩
  | cons i rest ih =>
    intro bs
    cases hlook : meta.images.lookup i with
    | none => exact ⟨[], by simp [importImagesV2, hlook, stepBlobsImg]⟩
    | some imgs =>
      obtain ⟨t1, ht1⟩ := importImagesPartV2_extends files i imgs 0 bs
      cases hpart : importImagesPartV2 files i imgs 0 bs with
      | error e =>
        obtain ⟨r, bsE⟩ := e
        rw [hpart] at ht1
        simp only [stepBlobsPart] at ht1
        refine ⟨t1, ?_⟩
        simp only [importImagesV2, hlook, hpart, stepBlobsImg]
        exact ht1
      | ok pr =>
        obtain ⟨bs1, ps⟩ := pr
        rw [hpart] at ht1
        simp only [stepBlobsPart] at ht1
        obtain ⟨t2, ht2⟩ := ih bs1
        refine ⟨t1 ++ t2, ?_⟩
        simp only [importImagesV2, hlook, hpart]
        cases hrec : importImagesV2 meta files rest bs1 with
        | error e2 =>
          obtain ⟨r2, bsE2⟩ := e2
          rw [hrec] at ht2
          simp only [stepBlobsImg] at ht2 ⊢
          rw [ht2, ht1, List.append_assoc]
        | ok pr2 =>
          obtain ⟨bs2, pss⟩ := pr2
          rw [hrec] at ht2
          simp only [stepBlobsImg] at ht2 ⊢
          rw [ht2, ht1, List.append_assoc]

/-- The blob store after the second variant's whole import extends the
prior store: nothing already written is ever deleted, so a failing run
of the import leaves its partial writes behind. -/
theorem uploadZipV2_blobs_extend (s : ServerState) (pkg : PkgV2)
    (nid : String) :
    ∃ t, (uploadZipV2 s pkg nid).2.blobs = s.blobs ++ t := by
  cases hm : pkg.meta with
  | none => exact ⟨[], by simp [uploadZipV2, hm]⟩
  | some meta =>
    obtain ⟨t1, ht1⟩ := importAudioV2_extends meta pkg.files [1, 2, 3, 4] s.blobs
    cases ha : importAudioV2 meta pkg.files [1, 2, 3, 4] s.blobs with
    | error e =>
      obtain ⟨r, bsE⟩ := e
      rw [ha] at ht1
      simp only [stepBlobs] at ht1
      exact ⟨t1, by simp [uploadZipV2, hm, ha, ht1]⟩
    | ok bs =>
      rw [ha] at ht1
      simp only [stepBlobs] at ht1
      obtain ⟨t2, ht2⟩ :=
        importImagesV2_extends meta pkg.files [1, 2, 3, 4, 5, 6, 7] bs
      cases hi : importImagesV2 meta pkg.files [1, 2, 3, 4, 5, 6, 7] bs with
      | error e2 =>
        obtain ⟨r2, bsE2⟩ := e2
        rw [hi] at ht2
        simp only [stepBlobsImg] at ht2
        refine ⟨t1 ++ t2, ?_⟩
        simp only [uploadZipV2, hm, ha, hi]
        rw [ht2, ht1, List.append_assoc]
      | ok pr =>
        obtain ⟨bs2, images⟩ := pr
        rw [hi] at ht2
        simp only [stepBlobsImg] at ht2
        refine ⟨t1 ++ t2, ?_⟩
        simp only [uploadZipV2, hm, ha, hi]
        rw [ht2, ht1, List.append_assoc]

/-- The blob store after the first variant's import extends the prior
store in every branch, failing or not: that import deletes no blob. -/
theorem uploadZipV1_blobs_extend (s : ServerState) (pkg : PkgV1)
    (nid : String) :
    ∃ t, (uploadZipV1 s pkg nid).2.blobs = s.blobs ++ t := by
  cases hm : pkg.meta with
  | none => exact ⟨[], by simp [uploadZipV1, hm]⟩
  | some meta =>
    cases ha : meta.audio with
    | none =>
      by_cases h1 : 1 ∈ pkg.audioParts
      · exact ⟨[v1AudioBlobName nid 1], by simp [uploadZipV1, hm, ha, h1]⟩
      · exact ⟨[], by simp [uploadZipV1, hm, ha, h1]⟩
    | some m =>
      cases hi : meta.images with
      | none =>
        refine ⟨[1, 2, 3, 4].filterMap (fun i =>
          if pkg.audioParts.contains i then some (v1AudioBlobName nid i)
          else none), ?_⟩
        simp only [uploadZipV1, hm, ha, hi]
      | some mi =>
        refine ⟨[1, 2, 3, 4].filterMap (fun i =>
            if pkg.audioParts.contains i then some (v1AudioBlobName nid i)
            else none) ++
          [1, 2, 3, 4, 5, 6, 7].foldr (fun i acc =>
            ((pkg.imageFiles.lookup i).getD []).map (v1ImageBlobName nid i)
              ++ acc) [], ?_⟩
        simp only [uploadZipV1, hm, ha, hi]

/-- C5 (amended): neither variant's package import performs
compensating cleanup. Across both imports the blob store only ever
grows, so an error partway leaves every already-written blob behind.
A failure before the first write leaves the state unchanged (first
variant: missing metadata entry); but the first variant can also fail
after writing — metadata without an `audio` object while the part-1
audio file is present copies that blob and then throws, keeping the
blob, and metadata with audio but without an `images` object throws
after all audio copies — and in each failing case no exam is created. -/
theorem import_atomicity_amended (s : ServerState) (pkg1 : PkgV1)
    (pkg2 : PkgV2) (nid1 nid2 : String) :
    (∃ t, (uploadZipV1 s pkg1 nid1).2.blobs = s.blobs ++ t) ∧
    (∃ t, (uploadZipV2 s pkg2 nid2).2.blobs = s.blobs ++ t) ∧
    (pkg1.meta = none →
      (uploadZipV1 s pkg1 nid1).1 ≠ .ok ∧ (uploadZipV1 s pkg1 nid1).2 = s) ∧
    (∀ meta, pkg1.meta = some meta → meta.audio = none →
      1 ∈ pkg1.audioParts →
      (uploadZipV1 s pkg1 nid1).1 = .serverError ∧
      (uploadZipV1 s pkg1 nid1).2.blobs =
        s.blobs ++ [v1AudioBlobName nid1 1] ∧
      (uploadZipV1 s pkg1 nid1).2.quizzes = s.quizzes) ∧
    (∀ meta m, pkg1.meta = some meta → meta.audio = some m →
      meta.images = none →
      (uploadZipV1 s pkg1 nid1).1 = .serverError ∧
      (uploadZipV1 s pkg1 nid1).2.quizzes = s.quizzes) := by
  refine ⟨uploadZipV1_blobs_extend s pkg1 nid1,
          uploadZipV2_blobs_extend s pkg2 nid2, ?_, ?_, ?_⟩
  · intro hm
    constructor <;> simp [uploadZipV1, hm]
  · intro meta hm ha h1
    refine ⟨?_, ?_, ?_⟩ <;> simp [uploadZipV1, hm, ha, h1]
  · intro meta m hm ha hi
    constructor <;> simp [uploadZipV1, hm, ha, hi]

/-- Package whose metadata parses but has no `audio` object while the
archive contains the part-1 audio file; used by the C5 witness. -/
def c5NoAudioObjPkg : PkgV1 :=
  { meta := some { quizName := "x", answerKey := [("q1", "A")],
                   createdBy := "t", audio := none, images := some [] },
    audioParts := [1], imageFiles := [] }

/-- Package metadata naming all four audio parts with ".mp3" sources
and empty image lists, used by the C5 artifacts. -/
def c5Meta : MetaV2 :=
  { quizName := "x",
    audio := [(1, "a.mp3"), (2, "b.mp3"), (3, "c.mp3"), (4, "d.mp3")],
    images := [(1, []), (2, []), (3, []), (4, []), (5, []), (6, []), (7, [])],
    answerKey := [("q1", "A")], createdBy := "t" }

/-- Package whose archive holds the part-1 audio file but not the
part-2 one, used by the C5 artifacts. -/
def c5Pkg : PkgV2 := { meta := some c5Meta, files := ["audio-part1.mp3"] }

/-- Witness for the amended C5 theorem: the first-variant import of
`c5NoAudioObjPkg` errors while keeping the part-1 blob it copied (and
creates no exam), and both imports only extend the blob store. -/
theorem import_atomicity_amended_witness :
    (∃ t, (uploadZipV1 emptyState c5NoAudioObjPkg "n").2.blobs =
      emptyState.blobs ++ t) ∧
    ((uploadZipV1 emptyState c5NoAudioObjPkg "n").1 = .serverError ∧
     (uploadZipV1 emptyState c5NoAudioObjPkg "n").2.blobs =
       emptyState.blobs ++ [v1AudioBlobName "n" 1] ∧
     (uploadZipV1 emptyState c5NoAudioObjPkg "n").2.quizzes =
       emptyState.quizzes) ∧
    (∃ t, (uploadZipV2 emptyState c5Pkg "m").2.blobs =
      emptyState.blobs ++ t) := by
  have h := import_atomicity_amended emptyState c5NoAudioObjPkg c5Pkg "n" "m"
  exact ⟨h.1, h.2.2.2.1 _ rfl rfl (by decide), h.2.1⟩

/-- C5 counterexample: importing `c5Pkg` through the second variant
returns the missing-audio error for part 2, yet the part-1 blob it had
already written is still in the store — the claimed compensating
deletion of already-written blobs does not happen. -/
theorem import_atomicity_counterexample :
    (uploadZipV2 emptyState c5Pkg "n").1 =
      .badRequest "Missing audio file for part 2" ∧
    v2AudioBlobName 1 ∈ (uploadZipV2 emptyState c5Pkg "n").2.blobs := by
  decide

/-- C7 (amended, part_001): an uploaded package whose answer key fails
the part_001 validation — not exactly 200 entries `q1`..`q200`, each
mapping to one of A, B, C, D — is rejected: the import answers an
error and no exam record is created. (The second src/server.js variant
performs no such validation; see the counterexample.) -/
theorem uploadZipP1_invalid_key (s : StateP1) (pkg : PkgP1) (newId : String)
    (key : List (String × String))
    (hkey : pkg.answerKey = some key) (hbad : validKey200 key = false) :
    (uploadZipP1 s pkg newId).1 ≠ .ok ∧
    (uploadZipP1 s pkg newId).2.quizzes = s.quizzes := by
  cases hinfo : pkg.quizInfo with
  | none => exact ⟨by simp [uploadZipP1, hinfo, hkey], by simp [uploadZipP1, hinfo, hkey]⟩
  | some info =>
    by_cases hA : pkg.audioEntries.length < 4
    · exact ⟨by simp [uploadZipP1, hinfo, hkey, hA],
            by simp [uploadZipP1, hinfo, hkey, hA]⟩
    · by_cases hB : ([1, 2, 3, 4, 5, 6, 7].all
          (fun i => pkg.imageEntries.any (fun e => e.1 == i))) = true
      · by_cases hC : (key.length != 200) = true
        · exact ⟨by simp [uploadZipP1, hinfo, hkey, hA, hB, hC],
                by simp [uploadZipP1, hinfo, hkey, hA, hB, hC]⟩
        · have hlen : (key.length == 200) = true := by
            simpa using hC
          have hall : ((List.range 200).all
              (fun i => p1GoodAnswer key (i + 1))) = false := by
            unfold validKey200 at hbad
            rw [hlen] at hbad
            simpa using hbad
          have hex : ∃ i ∈ List.range 200,
              (!p1GoodAnswer key (i + 1)) = true := by
            rcases List.all_eq_false.mp hall with ⟨i, hi, hgi⟩
            exact ⟨i, hi, by simp [hgi]⟩
          rcases hex with ⟨i, hi, hgi⟩
          cases hfind : (List.range 200).find?
              (fun i => !p1GoodAnswer key (i + 1)) with
          | none =>
            exfalso
            have h2 := List.find?_eq_none.mp hfind i hi
            exact h2 hgi
          | some i0 =>
            exact ⟨by simp [uploadZipP1, hinfo, hkey, hA, hB, hC, hfind],
                  by simp [uploadZipP1, hinfo, hkey, hA, hB, hC, hfind]⟩
      · exact ⟨by simp [uploadZipP1, hinfo, hkey, hA, hB],
              by simp [uploadZipP1, hinfo, hkey, hA, hB]⟩

/-- Package with complete media but the invalid answer key
`{q1:"Z"}`, used by the C7 witness. -/
def c7PkgP1 : PkgP1 :=
  { quizInfo := some ⟨"x", "t"⟩, answerKey := some [("q1", "Z")],
    audioEntries := [(1, ".mp3"), (2, ".mp3"), (3, ".mp3"), (4, ".mp3")],
    imageEntries := [(1, ".png"), (2, ".png"), (3, ".png"), (4, ".png"),
                     (5, ".png"), (6, ".png"), (7, ".png")] }

/-- Witness for the amended C7 theorem at `p1State` and `c7PkgP1`. -/
theorem uploadZipP1_invalid_key_witness :
    c7PkgP1.answerKey = some [("q1", "Z")] ∧
    validKey200 [("q1", "Z")] = false ∧
    ((uploadZipP1 p1State c7PkgP1 "n").1 ≠ .ok ∧
     (uploadZipP1 p1State c7PkgP1 "n").2.quizzes = p1State.quizzes) :=
  ⟨rfl, by decide,
   uploadZipP1_invalid_key p1State c7PkgP1 "n" [("q1", "Z")] rfl (by decide)⟩

/-- Package metadata with the invalid answer key `{q1:"Z"}`, all four
audio parts and empty image lists, used by the C7 counterexample. -/
def c7Meta : MetaV2 :=
  { quizName := "x",
    audio := [(1, "a.mp3"), (2, "b.mp3"), (3, "c.mp3"), (4, "d.mp3")],
    images := [(1, []), (2, []), (3, []), (4, []), (5, []), (6, []), (7, [])],
    answerKey := [("q1", "Z")], createdBy := "t" }

/-- Package whose archive holds all four audio files, used by the C7
counterexample. -/
def c7Pkg : PkgV2 :=
  { meta := some c7Meta,
    files := ["audio-part1.mp3", "audio-part2.mp3",
              "audio-part3.mp3", "audio-part4.mp3"] }

/-- C7 counterexample: the second src/server.js variant's zip import
accepts `c7Pkg` — whose answer key maps q1 to "Z", violating the Exam
invariant — and stores the exam with that key: no InvalidAnswerKey
error is raised and an exam record is created. -/
theorem import_validation_counterexample :
    (uploadZipV2 emptyState c7Pkg "n").1 = .ok ∧
    ∃ q ∈ (uploadZipV2 emptyState c7Pkg "n").2.quizzes,
      q.answerKey = [("q1", "Z")] := by
  decide

end ToeicQuiz
